import Mathlib

/-!
Verification development for the gofile downloader (src/gofile_dl.py).

The Python source is shallowly embedded: strings are lists of characters,
file contents are lists of byte values, and every network interaction of a
download strategy is captured by an explicit environment record describing
what the transport layer returns (whether each request succeeds, the
content-length headers, and the sequence of body chunks).  Each strategy
becomes a pure function from its environment and the current state of the
destination file to an outcome together with the new state of the
destination file.  An outcome is either a returned boolean or an uncaught
exception, mirroring the Python control flow.
-/

/-- Python strings are modelled as lists of characters. -/
abbrev Str := List Char

/-- File contents are modelled as lists of byte values. -/
abbrev Bytes := List Nat

/-- The state of the destination path: `none` when no file exists there,
`some bs` when a file with contents `bs` has been written. -/
abbrev FileState := Option Bytes

/-- A membership-style character test used by the resolver, mirroring the
character class `[a-zA-Z0-9]` of the source's regular expression. -/
def isAlnum (c : Char) : Bool := c.isAlpha || c.isDigit

/-- Mirrors Python list/str prefix testing (`startswith`): is the first list
an initial segment of the second? -/
def isPre [DecidableEq α] : List α → List α → Bool
  | [], _ => true
  | _ :: _, [] => false
  | a :: as, b :: bs => if a = b then isPre as bs else false

/-- Mirrors the Python membership test `needle in hay` on strings: does
`needle` occur as a contiguous segment of `hay`? -/
def containsSub [DecidableEq α] (needle : List α) : List α → Bool
  | [] => needle.isEmpty
  | b :: bs => isPre needle (b :: bs) || containsSub needle bs

/-- Worker for `replaceAll`, structurally recursive on a fuel bound so
the kernel can evaluate it; every step consumes at least one element of
the input, so fuel equal to the input length is never exhausted. -/
def replaceAllF [DecidableEq α] (a b : List α) : Nat → List α → List α
  | _, [] => []
  | 0, s => s
  | fuel + 1, c :: rest =>
    if a ≠ [] ∧ isPre a (c :: rest) = true then
      b ++ replaceAllF a b fuel (rest.drop (a.length - 1))
    else
      c :: replaceAllF a b fuel rest

/-- Mirrors Python `hay.replace(a, b)` for a nonempty pattern `a`:
replaces every non-overlapping occurrence of `a` by `b`, left to right. -/
def replaceAll [DecidableEq α] (a b s : List α) : List α :=
  replaceAllF a b s.length s

/-- Worker for `pySplit`, structurally recursive on a fuel bound so the
kernel can evaluate it; again the fuel is never exhausted. -/
def pySplitF [DecidableEq α] (sep : List α) : Nat → List α → List (List α)
  | _, [] => [[]]
  | 0, s => [s]
  | fuel + 1, c :: rest =>
    if sep ≠ [] ∧ isPre sep (c :: rest) = true then
      [] :: pySplitF sep fuel (rest.drop (sep.length - 1))
    else
      match pySplitF sep fuel rest with
      | [] => [[c]]
      | h :: t => (c :: h) :: t

/-- Mirrors Python `s.split(sep)` for a nonempty separator `sep`. -/
def pySplit [DecidableEq α] (sep s : List α) : List (List α) :=
  pySplitF sep s.length s

/-- Mirrors Python `s.lower()` on the ASCII strings the source handles. -/
def pyLower (s : Str) : Str := s.map Char.toLower

/-- Python truthiness of an optional string (`None` and `""` are falsy). -/
def optTruthy : Option Str → Bool
  | none => false
  | some s => !s.isEmpty

/- String literals appearing in the source. -/

def litDSlash : Str := "/d/".toList
def litDownloadSlash : Str := "/download/".toList
def litSlash : Str := "/".toList
def litGofile : Str := "gofile.io".toList
def litJpg : Str := ".jpg".toList
def litOk : Str := "ok".toList
def litPasswordOk : Str := "passwordOk".toList
def litFile : Str := "file".toList
def litFolder : Str := "folder".toList
def litUnknown : Str := "Unknown error".toList
def litApiErr : Str := "API error: ".toList
def litFailInfo : Str := "Failed to get file info".toList
def litPwdMsg : Str := "Password required or incorrect password provided".toList
def litSkip : Str := "Skipping file with missing information: ".toList
def litHttp : Str := "http".toList
def litHttps : Str := "https".toList
def litWww : Str := "www.".toList
def litColonSlash : Str := "://".toList

/- The six ways the optional groups of the source's regular expression
`(?:https?://)?(?:www\.)?gofile\.io/d/([a-zA-Z0-9]+)` can expand, in the
backtracking order of the regex engine. -/

def litP1 : Str := "https://www.gofile.io/d/".toList
def litP2 : Str := "https://gofile.io/d/".toList
def litP3 : Str := "http://www.gofile.io/d/".toList
def litP4 : Str := "http://gofile.io/d/".toList
def litP5 : Str := "www.gofile.io/d/".toList
def litP6 : Str := "gofile.io/d/".toList

def patAlts : List Str := [litP1, litP2, litP3, litP4, litP5, litP6]

/-- One attempted match of the source's regular expression at the start of
`s`: the alternatives for the optional scheme and `www.` groups are tried
in backtracking order; on success the captured group is the maximal
nonempty run of alphanumeric characters after `gofile.io/d/`. -/
def matchPatternAt (s : Str) : Option Str :=
  patAlts.findSome? fun p =>
    if isPre p s = true then
      let tok := (s.drop p.length).takeWhile isAlnum
      if tok = [] then none else some tok
    else none

/-- `re.search` semantics for the source's pattern: scan left to right and
return the capture of the leftmost successful match. -/
def reSearch : Str → Option Str
  | [] => none
  | c :: rest =>
    match matchPatternAt (c :: rest) with
    | some t => some t
    | none => reSearch rest

/-- Embedding of `extract_file_code` (src/gofile_dl.py lines 646-677):
inputs with no slash and no dot are returned unchanged; otherwise the
regular expression is searched and its capture returned, `none` on
failure. -/
def extract_file_code (input : Str) : Option Str :=
  if input.contains '/' = false ∧ input.contains '.' = false then some input
  else reSearch input

/-- Formalisation of the spec's canonical URL pattern
`<scheme>://[www.]<host>/d/<token>` (spec section 4.1 / claim C9), read
with a required scheme as the spec's bracket notation indicates, the host
fixed to the service host, and a nonempty alphanumeric token making up the
rest of the string. -/
def isCanonicalURL (s : Str) : Bool :=
  [litP1, litP2, litP3, litP4].any fun p =>
    isPre p s && !(s.drop p.length).isEmpty && (s.drop p.length).all isAlnum

/-- Does the source's pattern match anywhere in `s` (bounded search over
all suffix positions)? -/
def hasPatternMatch (s : Str) : Bool :=
  (List.range (s.length + 1)).any fun i => (matchPatternAt (s.drop i)).isSome

/-- The result of one download-strategy attempt as seen by the caller:
either the strategy returned a boolean, or it raised an exception that
escaped the strategy's own body. -/
inductive Attempt where
  | ok : Bool → Attempt
  | exn : Attempt
deriving DecidableEq, Repr

/-- Transport behaviour seen by `_download_with_requests` (lines 246-310):
`headSize` is the parsed content-length of the HEAD request (`none` when
the HEAD request or the parse failed, which the source catches and turns
into a zero size), `getOk` is whether the GET request itself succeeded
(a failure there is an uncaught exception), `getSize` the content-length
of the GET response (0 when absent), `chunks` the streamed body chunks,
and `streamError` whether iteration raised after those chunks (an
uncaught exception leaving the partial file in place). -/
structure RequestsEnv where
  headSize : Option Nat
  getOk : Bool
  getSize : Nat
  chunks : List Bytes
  streamError : Bool

/-- The expected total used by `_download_with_requests`: the HEAD result,
falling back to the GET content-length when the former is zero. -/
def reqTotal (e : RequestsEnv) : Nat :=
  if e.headSize.getD 0 = 0 then e.getSize else e.headSize.getD 0

/-- Embedding of `_download_with_requests` (lines 246-310).  Opening the
output in `'wb'` mode truncates it, so the written file is exactly the
concatenation of the delivered chunks.  When the expected total is known
and nonzero and fewer bytes were written, the strategy returns `False`;
nothing removes the partial file on that path. -/
def download_with_requests (e : RequestsEnv) (f0 : FileState) :
    Attempt × FileState :=
  if e.getOk = false then (.exn, f0)
  else
    let written := e.chunks.flatten
    if e.streamError then (.exn, some written)
    else if 0 < reqTotal e ∧ written.length < reqTotal e then
      (.ok false, some written)
    else (.ok true, some written)

/-- Transport behaviour seen by `_download_with_urllib` (lines 312-364):
the whole body is wrapped in a blanket `except` returning `False`, so no
exception escapes. -/
structure UrllibEnv where
  openOk : Bool
  contentLength : Option Nat
  chunks : List Bytes
  streamError : Bool

/-- Embedding of `_download_with_urllib` (lines 312-364). -/
def download_with_urllib (e : UrllibEnv) (f0 : FileState) :
    Attempt × FileState :=
  if e.openOk = false then (.ok false, f0)
  else
    let total := e.contentLength.getD 0
    let written := e.chunks.flatten
    if e.streamError then (.ok false, some written)
    else if 0 < total ∧ written.length < total then (.ok false, some written)
    else (.ok true, some written)

/-- Transport behaviour seen by `_download_with_requests_session`
(lines 366-409); again a blanket `except` returns `False`. -/
structure SessionEnv where
  getOk : Bool
  contentLength : Nat
  chunks : List Bytes
  streamError : Bool

/-- Embedding of `_download_with_requests_session` (lines 366-409): no
size comparison at all, success exactly when some bytes were written. -/
def download_with_requests_session (e : SessionEnv) (f0 : FileState) :
    Attempt × FileState :=
  if e.getOk = false then (.ok false, f0)
  else
    let written := e.chunks.flatten
    if e.streamError then (.ok false, some written)
    else if 0 < written.length then (.ok true, some written)
    else (.ok false, some written)

/-- Transport behaviour seen by `_download_with_browser_simulation`
(lines 411-543): the initial visit to the site root, the visit to the
`/d/` page when the URL has one, the final GET, its content-length, the
streamed chunks and a possible mid-stream error.  The entire body sits in
a `try` whose first handler catches every exception and returns `False`,
so the two later handlers that would delete the partial file are
unreachable and no exception escapes. -/
structure BrowserEnv where
  rootOk : Bool
  pageOk : Bool
  getOk : Bool
  getSize : Nat
  chunks : List Bytes
  streamError : Bool

/-- The URL rewrite performed inside the `/d/` branch of
`_download_with_browser_simulation` (lines 441-449). -/
def browserRewritten (url : Str) : Str :=
  if containsSub litDSlash url = true ∧ containsSub litDownloadSlash url = false
  then replaceAll litDSlash litDownloadSlash url
  else url

/-- The file code `_download_with_browser_simulation` extracts from the
URL (lines 453-458): `download_url.split('/d/')[1].split('/')[0]`, or the
same with `'/download/'`, or Python `None` when neither segment occurs. -/
def browserFileCode (url : Str) : Option Str :=
  if containsSub litDSlash url = true then
    some ((pySplit litSlash ((pySplit litDSlash url).getD 1 [])).getD 0 [])
  else if containsSub litDownloadSlash url = true then
    some ((pySplit litSlash ((pySplit litDownloadSlash url).getD 1 [])).getD 0 [])
  else none

/-- Bytes of the HTML document signature `b'<!DOCTYPE html>'`. -/
def doctypeBytes : Bytes := "<!DOCTYPE html>".toList.map Char.toNat

/-- Bytes of the HTML document signature `b'<html'`. -/
def htmlOpenBytes : Bytes := "<html".toList.map Char.toNat

/-- Embedding of `_download_with_browser_simulation` (lines 411-543).
When the (possibly rewritten) URL contains `gofile.io` and a truthy file
code is extracted, the source reads `self.api_token` (line 466); the
constructor only ever defines `self.token` (line 31), so that read raises
`AttributeError`, which the blanket handler at line 529 converts into a
plain `False` — embedded here as the third early exit.  Otherwise the GET
is streamed to disk and the heuristic HTML-signature check of
lines 516-524 runs on small `.jpg` outputs. -/
def download_with_browser_simulation (e : BrowserEnv) (url : Str)
    (filename : Str) (f0 : FileState) : Attempt × FileState :=
  if e.rootOk = false then (.ok false, f0)
  else if containsSub litDSlash url = true ∧ e.pageOk = false then
    (.ok false, f0)
  else
    let url1 := browserRewritten url
    if containsSub litGofile url1 = true ∧ optTruthy (browserFileCode url1) = true
    then (.ok false, f0)
    else if e.getOk = false then (.ok false, f0)
    else
      let written := e.chunks.flatten
      if e.streamError then (.ok false, some written)
      else if written.length < 10240 ∧ containsSub litJpg (pyLower filename) = true
      then
        if containsSub doctypeBytes (written.take 100) = true
            ∨ containsSub htmlOpenBytes (written.take 100) = true then
          (.ok false, some written)
        else if 0 < written.length then (.ok true, some written)
        else (.ok false, some written)
      else if 0 < written.length then (.ok true, some written)
      else (.ok false, some written)

/-- Everything `_download_single_file` needs: one environment per strategy
in the fixed order of the `approaches` list (lines 225-230), plus the URL
and display name passed to the strategies. -/
structure ChainEnv where
  req : RequestsEnv
  ul : UrllibEnv
  sess : SessionEnv
  brow : BrowserEnv
  downloadUrl : Str
  filename : Str

/-- Embedding of `_download_single_file` (lines 220-244): the four
strategies run in their fixed order against the shared destination path,
the chain returns `True` at the first strategy whose outcome is a
returned `True`, an `exn` outcome is caught by the `except` at line 239
and treated exactly like a returned `False`, and the chain returns
`False` only after all four attempts.  The third component counts how
many strategies were invoked. -/
def download_single_file (e : ChainEnv) (f0 : FileState) :
    Bool × FileState × Nat :=
  match download_with_requests e.req f0 with
  | (Attempt.ok true, f1) => (true, f1, 1)
  | (_, f1) =>
    match download_with_urllib e.ul f1 with
    | (Attempt.ok true, f2) => (true, f2, 2)
    | (_, f2) =>
      match download_with_requests_session e.sess f2 with
      | (Attempt.ok true, f3) => (true, f3, 3)
      | (_, f3) =>
        match download_with_browser_simulation e.brow e.downloadUrl e.filename f3 with
        | (Attempt.ok true, f4) => (true, f4, 4)
        | (_, f4) => (false, f4, 4)

/-- The outcome each strategy would report, with the destination file
threaded through the chain in order; used to state what "all four
strategies fail" means for a run of `download_single_file`. -/
def chainOutcomes (e : ChainEnv) (f0 : FileState) :
    Attempt × Attempt × Attempt × Attempt :=
  let r1 := download_with_requests e.req f0
  let r2 := download_with_urllib e.ul r1.2
  let r3 := download_with_requests_session e.sess r2.2
  let r4 := download_with_browser_simulation e.brow e.downloadUrl e.filename r3.2
  (r1.1, r2.1, r3.1, r4.1)

/-- The part of the metadata response's `data` node that `get_file_info`
inspects: the optional server message, whether a `password` key is
present, and the optional `passwordStatus` value.  The empty node stands
for Python's default `{}` of `data.get('data', {})`. -/
structure RawData where
  message : Option Str
  password : Bool
  passwordStatus : Option Str
deriving DecidableEq, Repr

instance : Inhabited RawData := ⟨⟨none, false, none⟩⟩

/-- The metadata request as seen by `get_file_info`: whether the HTTP
request, status check and JSON decoding succeeded (all failures there are
`requests` exceptions caught at line 117), the envelope's top-level
`status` value, and its `data` node. -/
structure ApiEnv where
  requestOk : Bool
  status : Option Str
  dataNode : Option RawData

/-- Return value of `get_file_info`: Python `None`, the sentinel dict
`{'password_required': True}`, or the `data` node itself. -/
inductive GetInfoResult where
  | err : GetInfoResult
  | passwordRequired : GetInfoResult
  | info : RawData → GetInfoResult
deriving DecidableEq, Repr

/-- Embedding of `get_file_info` (lines 65-119), paired with the list of
error messages it logs: a transport failure logs and returns `None`; a
top-level status other than `"ok"` logs `API error: ` with the server's
message (defaulting to `Unknown error`) and returns `None`; a data node
carrying a `password` key with a `passwordStatus` other than
`"passwordOk"` yields the password-required sentinel; otherwise the data
node is returned. -/
def get_file_info (e : ApiEnv) : GetInfoResult × List Str :=
  if e.requestOk = false then (.err, [litFailInfo])
  else if e.status ≠ some litOk then
    (.err, [litApiErr ++ ((e.dataNode.bind RawData.message).getD litUnknown)])
  else
    let dc := e.dataNode.getD default
    if dc.password = true ∧ dc.passwordStatus ≠ some litPasswordOk then
      (.passwordRequired, [litPwdMsg])
    else (.info dc, [])

/-- A child entry of a folder's `children` mapping, with the three fields
`_download_folder_contents` reads. -/
structure Child where
  type : Option Str
  link : Option Str
  name : Option Str
deriving DecidableEq, Repr

instance : Inhabited Child := ⟨⟨none, none, none⟩⟩

/-- `os.path.join` for the simple relative-name case the source uses. -/
def pathJoin (a b : Str) : Str := a ++ litSlash ++ b

/-- The URL rewrite of lines 589-592 (and 159-161): a `gofile.io` URL not
already in `/download/` form has its `/d/` segment rewritten. -/
def rewriteUrl (u : Str) : Str :=
  if containsSub litGofile u = true ∧ containsSub litDownloadSlash u = false
  then replaceAll litDSlash litDownloadSlash u
  else u

/-- What the download loop of `_download_folder_contents` produced: the
number of successful downloads, the chain invocations it made (directory,
rewritten URL, filename) in order, and the skip warnings it logged. -/
structure FolderScan where
  succ : Nat
  calls : List (Str × Str × Str)
  warns : List Str
deriving DecidableEq, Repr

/-- The download loop of `_download_folder_contents` (lines 579-595),
parametrised by the downloader `dl` standing for `_download_single_file`
applied at the current destination directory. -/
def folderLoop (dl : Str → Str → Str → Bool) (dir : Str) :
    List (Str × Child) → FolderScan
  | [] => ⟨0, [], []⟩
  | (cid, c) :: rest =>
    if c.type = some litFile then
      if (optTruthy c.link && optTruthy c.name) = true then
        let url := rewriteUrl (c.link.getD [])
        let nm := c.name.getD []
        let s := dl dir url nm
        let r := folderLoop dl dir rest
        ⟨(if s = true then 1 else 0) + r.succ, (dir, url, nm) :: r.calls, r.warns⟩
      else
        let r := folderLoop dl dir rest
        ⟨r.succ, r.calls, (litSkip ++ cid) :: r.warns⟩
    else folderLoop dl dir rest

/-- The count of file-typed children (lines 564-567). -/
def countFiles (ch : List (Str × Child)) : Nat :=
  (ch.filter fun p => decide (p.2.type = some litFile)).length

/-- The effective destination directory of a folder download: redirected
to `destinationRoot/customFolderName` when a custom name is given. -/
def batchDir (outDir : Str) : Option Str → Str
  | some n => pathJoin outDir n
  | none => outDir

/-- Result of a folder batch download: the returned boolean, the
downloader's destination directory after the call returns (the source
mutates `self.output_dir` and restores it), the attempted/succeeded
counts it logs, and the chain invocations and warnings of the loop. -/
structure BatchResult where
  success : Bool
  finalDir : Str
  attempted : Nat
  succeeded : Nat
  calls : List (Str × Str × Str)
  warns : List Str
deriving DecidableEq, Repr

/-- Embedding of `_download_folder_contents` (lines 545-602).  `mkdirOk`
is whether creating the custom folder succeeds (an `OSError` there is
caught and returns `False` before the destination is redirected).  The
three returns of the source each leave `self.output_dir` restored to its
original value, recorded here in `finalDir`. -/
def download_folder_contents (dl : Str → Str → Str → Bool) (mkdirOk : Bool)
    (outDir : Str) (children : List (Str × Child)) (customName : Option Str) :
    BatchResult :=
  if customName.isSome = true ∧ mkdirOk = false then
    ⟨false, outDir, 0, 0, [], []⟩
  else
    let dir := batchDir outDir customName
    let total := countFiles children
    if total = 0 then ⟨false, outDir, total, 0, [], []⟩
    else
      let r := folderLoop dl dir children
      ⟨decide (0 < r.succ), outDir, total, r.succ, r.calls, r.warns⟩

/- Refinement-side descriptions of the loop (claim C8), following the
spec's words: the eligible children are exactly the file-typed children
with both a URL and a name present. -/

/-- The chain invocations the spec prescribes: one per file-typed child
with a truthy link and name, at the effective directory, with the
rewritten URL. -/
def chainTargets (dir : Str) (ch : List (Str × Child)) :
    List (Str × Str × Str) :=
  (ch.filter fun p =>
      decide (p.2.type = some litFile) && (optTruthy p.2.link && optTruthy p.2.name)).map
    fun p => (dir, rewriteUrl (p.2.link.getD []), p.2.name.getD [])

/-- The warnings the spec prescribes: one per file-typed child missing
its URL or name. -/
def skipWarnings (ch : List (Str × Child)) : List Str :=
  (ch.filter fun p =>
      decide (p.2.type = some litFile) && !(optTruthy p.2.link && optTruthy p.2.name)).map
    fun p => litSkip ++ p.1

/- Concrete chain environments used to instantiate the batch scenario of
claim C3 with the real strategy chain: one environment on which the first
strategy succeeds, and one on which every strategy fails. -/

def reqEnvGood : RequestsEnv := ⟨some 3, true, 0, [[9, 9, 9]], false⟩
def reqEnvBad : RequestsEnv := ⟨none, false, 0, [], false⟩
def ulEnvBad : UrllibEnv := ⟨false, none, [], false⟩
def sessEnvBad : SessionEnv := ⟨false, 0, [], false⟩
def browEnvBad : BrowserEnv := ⟨false, true, true, 0, [], false⟩

/-- Chain environment for the C3 scenario: the transport cooperates on
the first file's URL and fails every request for any other URL. -/
def envFor (u nm : Str) : ChainEnv :=
  if u = "https://example.com/f1".toList then
    ⟨reqEnvGood, ulEnvBad, sessEnvBad, browEnvBad, u, nm⟩
  else ⟨reqEnvBad, ulEnvBad, sessEnvBad, browEnvBad, u, nm⟩

/-- `_download_single_file` under the C3 scenario's transport. -/
def dlC3 : Str → Str → Str → Bool :=
  fun _ u nm => (download_single_file (envFor u nm) none).1

/-- The C3 folder: a file that downloads, a file whose every strategy
fails, and a folder-typed child. -/
def childrenC3 : List (Str × Child) :=
  [("f1".toList, ⟨some litFile, some ("https://example.com/f1".toList),
      some ("f1.bin".toList)⟩),
   ("f2".toList, ⟨some litFile, some ("https://example.com/f2".toList),
      some ("f2.bin".toList)⟩),
   ("f3".toList, ⟨some litFolder, none, none⟩)]

/-- A downloader that always reports success and a folder with one
complete file child, one file child missing its name, and one
folder-typed child, instantiating the skipping behaviour of claim C8. -/
def dlTrue : Str → Str → Str → Bool := fun _ _ _ => true

def childrenC8 : List (Str × Child) :=
  [("g1".toList, ⟨some litFile, some ("https://example.com/g1".toList),
      some ("g1.bin".toList)⟩),
   ("g2".toList, ⟨some litFile, some ("https://example.com/g2".toList), none⟩),
   ("g3".toList, ⟨some litFolder, none, none⟩)]

/- ------------------------------------------------------------------ -/
/- Theorems.                                                           -/
/- ------------------------------------------------------------------ -/

theorem folderLoop_spec (dl : Str → Str → Str → Bool) (dir : Str)
    (ch : List (Str × Child)) :
    folderLoop dl dir ch =
      ⟨(chainTargets dir ch).countP (fun t => dl t.1 t.2.1 t.2.2),
       chainTargets dir ch, skipWarnings ch⟩ := by
  induction ch with
  | nil => rfl
  | cons p rest ih =>
    obtain ⟨cid, c⟩ := p
    by_cases hf : c.type = some litFile
    · cases hLink : optTruthy c.link <;> cases hName : optTruthy c.name <;>
        simp [folderLoop, chainTargets, skipWarnings, hf, hLink, hName,
          List.filter_cons, ih, List.countP_cons, Nat.add_comm]
    · simp [folderLoop, chainTargets, skipWarnings, hf, List.filter_cons, ih]

theorem no_files_aux (d : Str) (ch : List (Str × Child)) :
    countFiles ch = 0 → chainTargets d ch = [] ∧ skipWarnings ch = [] := by
  induction ch with
  | nil => exact fun _ => ⟨rfl, rfl⟩
  | cons p rest ih =>
    intro h
    by_cases hf : p.2.type = some litFile
    · exact absurd h (by simp [countFiles, List.filter_cons, hf])
    · have h' : countFiles rest = 0 := by
        simpa [countFiles, List.filter_cons, hf] using h
      have hr := ih h'
      have e1 : chainTargets d (p :: rest) = chainTargets d rest := by
        simp only [chainTargets, List.filter_cons]
        rw [if_neg (by simp [hf])]
      have e2 : skipWarnings (p :: rest) = skipWarnings rest := by
        simp only [skipWarnings, List.filter_cons]
        rw [if_neg (by simp [hf])]
      rw [e1, e2]
      exact hr

/-- C1: for every download request, the strategy chain tries its four
strategies in the fixed order (requests, urllib, session,
browser-simulation), stops and returns success at the first strategy that
reports success (the invocation count equals the position of the first
success), treats an `exn` outcome exactly like a returned failure — the
result type is a plain boolean, so no exception reaches the caller — and
returns failure if and only if none of the four (state-threaded) outcomes
is a returned success. -/
theorem c1_strategy_chain (e : ChainEnv) (f0 : FileState) :
    ((download_single_file e f0).1 = true ↔
      ((chainOutcomes e f0).1 = Attempt.ok true ∨
       (chainOutcomes e f0).2.1 = Attempt.ok true ∨
       (chainOutcomes e f0).2.2.1 = Attempt.ok true ∨
       (chainOutcomes e f0).2.2.2 = Attempt.ok true))
    ∧ (download_single_file e f0).2.2 =
      (if (chainOutcomes e f0).1 = Attempt.ok true then 1
       else if (chainOutcomes e f0).2.1 = Attempt.ok true then 2
       else if (chainOutcomes e f0).2.2.1 = Attempt.ok true then 3
       else 4) := by
  rcases h1 : download_with_requests e.req f0 with ⟨a1, f1⟩
  rcases h2 : download_with_urllib e.ul f1 with ⟨a2, f2⟩
  rcases h3 : download_with_requests_session e.sess f2 with ⟨a3, f3⟩
  rcases h4 : download_with_browser_simulation e.brow e.downloadUrl e.filename f3
    with ⟨a4, f4⟩
  rcases a1 with (_ | _) | _ <;> rcases a2 with (_ | _) | _ <;>
    rcases a3 with (_ | _) | _ <;> rcases a4 with (_ | _) | _ <;>
    simp [download_single_file, chainOutcomes, h1, h2, h3, h4]

/-- C2 counterexample, refuting the claim as stated: with a declared size
of 100 bytes and only 50 bytes written, the requests strategy does return
failure but leaves the partial file at the destination rather than
removing it, and the browser-simulation strategy does not even fail — it
reports success on the short write. -/
theorem c2_counterexample :
    download_with_requests ⟨some 100, true, 0, [List.replicate 50 1], false⟩ none
      = (Attempt.ok false, some (List.replicate 50 1))
    ∧ some (List.replicate 50 1) ≠ (none : FileState)
    ∧ download_with_browser_simulation
        ⟨true, true, true, 100, [List.replicate 50 1], false⟩
        ("https://example.com/f".toList) ("a.bin".toList) none
      = (Attempt.ok true, some (List.replicate 50 1)) := by decide

/-- C2 (amended): when the declared size `S` is known and `S > 0` and
fewer than `S` bytes are written, the requests and urllib strategies
report failure but leave the partially written file at the destination
path; the session and browser-simulation strategies perform no
declared-size comparison at all. -/
theorem c2_amended_short_write (eR : RequestsEnv) (eU : UrllibEnv)
    (fR fU : FileState)
    (h1 : eR.getOk = true) (h2 : eR.streamError = false)
    (h3 : 0 < reqTotal eR) (h4 : eR.chunks.flatten.length < reqTotal eR)
    (h5 : eU.openOk = true) (h6 : eU.streamError = false)
    (h7 : 0 < eU.contentLength.getD 0)
    (h8 : eU.chunks.flatten.length < eU.contentLength.getD 0) :
    download_with_requests eR fR = (Attempt.ok false, some eR.chunks.flatten)
    ∧ download_with_urllib eU fU = (Attempt.ok false, some eU.chunks.flatten) := by
  constructor
  · simp only [download_with_requests]
    rw [if_neg (by simp [h1]), if_neg (by simp [h2]), if_pos ⟨h3, h4⟩]
  · simp only [download_with_urllib]
    rw [if_neg (by simp [h5]), if_neg (by simp [h6]), if_pos ⟨h7, h8⟩]

theorem c2_amended_short_write_witness :
    download_with_requests ⟨some 100, true, 0, [List.replicate 50 1], false⟩ none
      = (Attempt.ok false, some ([List.replicate 50 1] : List Bytes).flatten)
    ∧ download_with_urllib ⟨true, some 100, [List.replicate 50 1], false⟩ none
      = (Attempt.ok false, some ([List.replicate 50 1] : List Bytes).flatten) :=
  c2_amended_short_write ⟨some 100, true, 0, [List.replicate 50 1], false⟩
    ⟨true, some 100, [List.replicate 50 1], false⟩ none none
    rfl rfl (by decide) (by decide) rfl rfl (by decide) (by decide)

/-- C3: a folder batch download reports overall success if and only if at
least one file succeeded, and on the folder with children `{f1: file
downloaded by the real chain at first attempt, f2: file on which every
strategy of the real chain fails, f3: folder-typed child}` it reports
attempted 2, succeeded 1, overall success. -/
theorem c3_batch_aggregate :
    (∀ (dl : Str → Str → Str → Bool) (mk : Bool) (outDir : Str)
        (ch : List (Str × Child)) (cn : Option Str),
      (download_folder_contents dl mk outDir ch cn).success = true ↔
        0 < (download_folder_contents dl mk outDir ch cn).succeeded)
    ∧ (download_folder_contents dlC3 true ("out".toList) childrenC3 none).attempted = 2
    ∧ (download_folder_contents dlC3 true ("out".toList) childrenC3 none).succeeded = 1
    ∧ (download_folder_contents dlC3 true ("out".toList) childrenC3 none).success = true := by
  refine ⟨?_, by decide, by decide, by decide⟩
  intro dl mk outDir ch cn
  unfold download_folder_contents
  by_cases h : cn.isSome = true ∧ mk = false
  · simp [h]
  · rw [if_neg h]
    by_cases h2 : countFiles ch = 0
    · simp [h2]
    · simp [h2]

/-- C4: when the data node carries a `password` key whose
`passwordStatus` is not `"passwordOk"`, `get_file_info` returns the
password-required sentinel — a value distinct by construction from both
the hard-failure return (`err`, Python `None`) and a returned data node,
so no file or folder descriptor is produced. -/
theorem c4_password_sentinel (e : ApiEnv) (d : RawData)
    (h1 : e.requestOk = true) (h2 : e.status = some litOk)
    (h3 : e.dataNode = some d) (h4 : d.password = true)
    (h5 : d.passwordStatus ≠ some litPasswordOk) :
    get_file_info e = (GetInfoResult.passwordRequired, [litPwdMsg]) := by
  simp [get_file_info, h1, h2, h3, h4, h5]

theorem c4_password_sentinel_witness :
    get_file_info ⟨true, some litOk, some ⟨none, true, none⟩⟩
      = (GetInfoResult.passwordRequired, [litPwdMsg]) :=
  c4_password_sentinel ⟨true, some litOk, some ⟨none, true, none⟩⟩
    ⟨none, true, none⟩ rfl rfl rfl rfl (by decide)

/-- C5: when the response envelope's top-level status differs from
`"ok"`, `get_file_info` returns the hard-failure value (Python `None`,
never a data node or the password sentinel) and logs exactly one API
error carrying the server-supplied message; the embedding consumes its
single request environment once, so no retry happens at this layer. -/
theorem c5_api_error (e : ApiEnv) (d : RawData) (m : Str)
    (h1 : e.requestOk = true) (h2 : e.status ≠ some litOk)
    (h3 : e.dataNode = some d) (h4 : d.message = some m) :
    get_file_info e = (GetInfoResult.err, [litApiErr ++ m]) := by
  simp [get_file_info, h1, h2, h3, h4]

theorem c5_api_error_witness :
    get_file_info ⟨true, some ("error".toList),
        some ⟨some ("boom".toList), false, none⟩⟩
      = (GetInfoResult.err, [litApiErr ++ ("boom".toList)]) :=
  c5_api_error ⟨true, some ("error".toList),
      some ⟨some ("boom".toList), false, none⟩⟩
    ⟨some ("boom".toList), false, none⟩ ("boom".toList)
    rfl (by decide) rfl rfl

/-- C6: when the browser-simulation strategy reaches its streaming write
(root visit ok, page visit ok, not the broken api-token branch, GET ok,
no stream error) and the written output is smaller than the fixed
10240-byte threshold, the filename contains `.jpg` (case-insensitively),
and the first 100 bytes contain an HTML document signature, the strategy
reports failure even though a nonzero number of bytes was written. -/
theorem c6_html_heuristic (e : BrowserEnv) (url fn : Str) (f0 : FileState)
    (h1 : e.rootOk = true)
    (h2 : ¬(containsSub litDSlash url = true ∧ e.pageOk = false))
    (h3 : ¬(containsSub litGofile (browserRewritten url) = true ∧
            optTruthy (browserFileCode (browserRewritten url)) = true))
    (h4 : e.getOk = true) (h5 : e.streamError = false)
    (h6 : e.chunks.flatten.length < 10240)
    (h7 : containsSub litJpg (pyLower fn) = true)
    (h8 : containsSub doctypeBytes (e.chunks.flatten.take 100) = true
          ∨ containsSub htmlOpenBytes (e.chunks.flatten.take 100) = true)
    (_h9 : 0 < e.chunks.flatten.length) :
    download_with_browser_simulation e url fn f0
      = (Attempt.ok false, some e.chunks.flatten) := by
  simp only [download_with_browser_simulation]
  rw [if_neg (by simp [h1]), if_neg h2, if_neg h3, if_neg (by simp [h4]),
    if_neg (by simp [h5]), if_pos ⟨h6, h7⟩, if_pos h8]

theorem c6_html_heuristic_witness :
    download_with_browser_simulation
      ⟨true, true, true, 0, [("<html>err".toList.map Char.toNat)], false⟩
      ("https://example.com/p".toList) ("photo.jpg".toList) none
      = (Attempt.ok false, some ("<html>err".toList.map Char.toNat)) :=
  c6_html_heuristic
    ⟨true, true, true, 0, [("<html>err".toList.map Char.toNat)], false⟩
    ("https://example.com/p".toList) ("photo.jpg".toList) none
    rfl (by decide) (by decide) rfl rfl (by decide) (by decide)
    (Or.inr (by decide)) (by decide)

/-- C7: a folder batch download with a custom folder name leaves the
downloader's destination directory restored to its original value on
every exit path (failed folder creation, empty folder, and the normal
path), and every chain invocation it makes during the call is made
against the redirected directory `destinationRoot/customFolderName`. -/
theorem c7_destination_scope (dl : Str → Str → Str → Bool) (mk : Bool)
    (outDir : Str) (ch : List (Str × Child)) (n : Str) :
    (download_folder_contents dl mk outDir ch (some n)).finalDir = outDir
    ∧ ((download_folder_contents dl mk outDir ch (some n)).calls.all
        fun c => decide (c.1 = pathJoin outDir n)) = true := by
  simp only [download_folder_contents]
  by_cases h : (some n : Option Str).isSome = true ∧ mk = false
  · simp [h]
  · rw [if_neg h]
    by_cases h2 : countFiles ch = 0
    · simp [h2]
    · rw [if_neg h2, folderLoop_spec]
      refine ⟨rfl, ?_⟩
      rw [List.all_eq_true]
      intro x hx
      simp only [chainTargets, List.mem_map] at hx
      obtain ⟨p, hp, rfl⟩ := hx
      simp [batchDir]

/-- C8: for every folder batch download (whose custom-folder creation, if
any, succeeds), the strategy chain is invoked exactly once per file-typed
child having both a truthy download URL and a truthy name — in order,
with the URL rewritten to `/download/` form — a file-typed child missing
either field contributes exactly a skip warning, and the succeeded count
is the number of eligible children on which the chain reports success, so
skipped children are not counted as failures. -/
theorem c8_eligible_children (dl : Str → Str → Str → Bool) (mk : Bool)
    (outDir : Str) (ch : List (Str × Child)) (cn : Option Str)
    (h : cn = none ∨ mk = true) :
    (download_folder_contents dl mk outDir ch cn).calls
        = chainTargets (batchDir outDir cn) ch
    ∧ (download_folder_contents dl mk outDir ch cn).warns = skipWarnings ch
    ∧ (download_folder_contents dl mk outDir ch cn).succeeded
        = (chainTargets (batchDir outDir cn) ch).countP
            (fun t => dl t.1 t.2.1 t.2.2) := by
  have hg : ¬(cn.isSome = true ∧ mk = false) := by
    rcases h with h | h <;> simp [h]
  unfold download_folder_contents
  rw [if_neg hg]
  by_cases h2 : countFiles ch = 0
  · have hz := no_files_aux (batchDir outDir cn) ch h2
    simp [h2, hz.1, hz.2]
  · simp [h2, folderLoop_spec]

theorem c8_eligible_children_witness :
    (download_folder_contents dlTrue true ("o".toList) childrenC8 none).calls
        = chainTargets (batchDir ("o".toList) none) childrenC8
    ∧ (download_folder_contents dlTrue true ("o".toList) childrenC8 none).warns
        = skipWarnings childrenC8
    ∧ (download_folder_contents dlTrue true ("o".toList) childrenC8 none).succeeded
        = (chainTargets (batchDir ("o".toList) none) childrenC8).countP
            (fun t => dlTrue t.1 t.2.1 t.2.2) :=
  c8_eligible_children dlTrue true ("o".toList) childrenC8 none (Or.inl rfl)

theorem takeWhile_of_all {p : Char → Bool} {l : Str}
    (h : ∀ c ∈ l, p c = true) : l.takeWhile p = l := by
  induction l with
  | nil => rfl
  | cons c rest ih =>
    have hc : p c = true := h c (by simp)
    have ihr := ih fun x hx => h x (by simp [hx])
    simp [List.takeWhile_cons, hc, ihr]

theorem reSearch_at_head {s t : Str} (h : matchPatternAt s = some t) :
    reSearch s = some t := by
  cases s with
  | nil =>
    rw [show matchPatternAt ([] : Str) = none from rfl] at h
    exact Option.noConfusion h
  | cons c rest => simp [reSearch, h]

theorem matchAt_comboP1 (tok : Str) (ht : tok ≠ [])
    (ha : tok.takeWhile isAlnum = tok) :
    matchPatternAt (litP1 ++ tok) = some tok := by
  have e1 : isPre litP1 (litP1 ++ tok) = true := rfl
  have e3 : (litP1 ++ tok).drop litP1.length = tok := rfl
  simp [matchPatternAt, patAlts, List.findSome?, e1, e3, ha, ht]

theorem matchAt_comboP2 (tok : Str) (ht : tok ≠ [])
    (ha : tok.takeWhile isAlnum = tok) :
    matchPatternAt (litP2 ++ tok) = some tok := by
  have e1 : isPre litP1 (litP2 ++ tok) = false := rfl
  have e2 : isPre litP2 (litP2 ++ tok) = true := rfl
  have e3 : (litP2 ++ tok).drop litP2.length = tok := rfl
  simp [matchPatternAt, patAlts, List.findSome?, e1, e2, e3, ha, ht]

theorem matchAt_comboP3 (tok : Str) (ht : tok ≠ [])
    (ha : tok.takeWhile isAlnum = tok) :
    matchPatternAt (litP3 ++ tok) = some tok := by
  have e1 : isPre litP1 (litP3 ++ tok) = false := rfl
  have e2 : isPre litP2 (litP3 ++ tok) = false := rfl
  have e3 : isPre litP3 (litP3 ++ tok) = true := rfl
  have e4 : (litP3 ++ tok).drop litP3.length = tok := rfl
  simp [matchPatternAt, patAlts, List.findSome?, e1, e2, e3, e4, ha, ht]

theorem matchAt_comboP4 (tok : Str) (ht : tok ≠ [])
    (ha : tok.takeWhile isAlnum = tok) :
    matchPatternAt (litP4 ++ tok) = some tok := by
  have e1 : isPre litP1 (litP4 ++ tok) = false := rfl
  have e2 : isPre litP2 (litP4 ++ tok) = false := rfl
  have e3 : isPre litP3 (litP4 ++ tok) = false := rfl
  have e4 : isPre litP4 (litP4 ++ tok) = true := rfl
  have e5 : (litP4 ++ tok).drop litP4.length = tok := rfl
  simp [matchPatternAt, patAlts, List.findSome?, e1, e2, e3, e4, e5, ha, ht]

theorem reSearch_none_iff (s : Str) :
    reSearch s = none ↔ hasPatternMatch s = false := by
  induction s with
  | nil => decide
  | cons c rest ih =>
    have hexp : hasPatternMatch (c :: rest)
        = ((matchPatternAt (c :: rest)).isSome || hasPatternMatch rest) := by
      rw [hasPatternMatch, hasPatternMatch, List.length_cons]
      nth_rewrite 1 [List.range_succ_eq_map]
      rw [List.any_cons, List.any_map]
      rfl
    cases hm : matchPatternAt (c :: rest) with
    | some t => simp [reSearch, hm, hexp]
    | none => simp [reSearch, hm, hexp, ih]

theorem extract_via_search {s : Str}
    (hc : s.contains '/' = true ∨ s.contains '.' = true) :
    extract_file_code s = reSearch s := by
  have hneg : ¬(s.contains '/' = false ∧ s.contains '.' = false) := by
    intro hcon
    rcases hc with h | h
    · rw [h] at hcon
      exact Bool.noConfusion hcon.1
    · rw [h] at hcon
      exact Bool.noConfusion hcon.2
  rw [extract_file_code, if_neg hneg]

/-- C9 counterexample, refuting the claim's second half as stated: the
input `gofile.io/d/abc` contains a dot (and a slash) and does not match
the spec's canonical pattern `<scheme>://[www.]<host>/d/<token>` — the
scheme is absent — yet `extract_file_code` returns `abc`, not `none`,
because the source's regular expression makes the scheme optional and
searches anywhere in the input. -/
theorem c9_counterexample :
    ("gofile.io/d/abc".toList).contains '.' = true
    ∧ ("gofile.io/d/abc".toList).contains '/' = true
    ∧ isCanonicalURL ("gofile.io/d/abc".toList) = false
    ∧ extract_file_code ("gofile.io/d/abc".toList)
        = some ("abc".toList) := by decide

/-- C9 (amended): for every input of the canonical form
`<scheme>://[www.]gofile.io/d/<token>` with `scheme ∈ {http, https}` and
a nonempty alphanumeric token, `extract_file_code` returns the token; and
for every input containing a slash or a dot, it returns `none` exactly
when the source's (scheme-optional, searched-anywhere) pattern matches at
no position of the input — not merely when the input fails the canonical
pattern. -/
theorem c9_amended_resolver (s w tok input : Str)
    (hs : s = litHttp ∨ s = litHttps) (hw : w = [] ∨ w = litWww)
    (ht : tok ≠ []) (ha : ∀ c ∈ tok, isAlnum c = true)
    (hsep : input.contains '/' = true ∨ input.contains '.' = true) :
    extract_file_code (s ++ litColonSlash ++ w ++ litP6 ++ tok) = some tok
    ∧ (extract_file_code input = none ↔ hasPatternMatch input = false) := by
  have hta : tok.takeWhile isAlnum = tok := takeWhile_of_all ha
  constructor
  · rcases hs with hs | hs <;> rcases hw with hw | hw <;> subst hs <;> subst hw
    · show extract_file_code (litP4 ++ tok) = some tok
      have hc : (litP4 ++ tok).contains '/' = true := rfl
      rw [extract_via_search (Or.inl hc)]
      exact reSearch_at_head (matchAt_comboP4 tok ht hta)
    · show extract_file_code (litP3 ++ tok) = some tok
      have hc : (litP3 ++ tok).contains '/' = true := rfl
      rw [extract_via_search (Or.inl hc)]
      exact reSearch_at_head (matchAt_comboP3 tok ht hta)
    · show extract_file_code (litP2 ++ tok) = some tok
      have hc : (litP2 ++ tok).contains '/' = true := rfl
      rw [extract_via_search (Or.inl hc)]
      exact reSearch_at_head (matchAt_comboP2 tok ht hta)
    · show extract_file_code (litP1 ++ tok) = some tok
      have hc : (litP1 ++ tok).contains '/' = true := rfl
      rw [extract_via_search (Or.inl hc)]
      exact reSearch_at_head (matchAt_comboP1 tok ht hta)
  · rw [extract_via_search hsep]
    exact reSearch_none_iff input

theorem c9_amended_resolver_witness :
    extract_file_code (litHttps ++ litColonSlash ++ ([] : Str) ++ litP6
        ++ ("abc".toList)) = some ("abc".toList)
    ∧ (extract_file_code ("a.b".toList) = none
        ↔ hasPatternMatch ("a.b".toList) = false) :=
  c9_amended_resolver litHttps [] ("abc".toList) ("a.b".toList)
    (Or.inr rfl) (Or.inl rfl) (by decide) (by decide) (Or.inr (by decide))

/-- C10 counterexample, refuting the claim as stated: the URL
`https://gofile.io/d/` contains `gofile.io` and `/d/`, yet with a
cooperative transport the browser-simulation attempt succeeds — the
extracted file code is the empty string, which is falsy, so the broken
`self.api_token` branch is skipped and the streamed download completes. -/
theorem c10_counterexample :
    containsSub litGofile ("https://gofile.io/d/".toList) = true
    ∧ containsSub litDSlash ("https://gofile.io/d/".toList) = true
    ∧ download_with_browser_simulation ⟨true, true, true, 3, [[1, 2, 3]], false⟩
        ("https://gofile.io/d/".toList) ("file.bin".toList) none
      = (Attempt.ok true, some [1, 2, 3]) := by decide

/-- C10 (amended): for every download URL that — after the strategy's
`/d/` → `/download/` rewrite — contains `gofile.io` and yields a
nonempty (truthy) file code from its `/d/` or `/download/` segment, the
browser-simulation attempt fails for every transport behaviour and
leaves the destination file untouched: the strategy reads the undefined
attribute `self.api_token` (the constructor only defines `self.token`),
and the resulting `AttributeError` is caught by the strategy's blanket
handler and converted into that strategy's failure.  The fourth fallback
strategy can therefore never succeed for such URLs. -/
theorem c10_amended_browser_token_bug (e : BrowserEnv) (url fn : Str)
    (f0 : FileState)
    (hg : containsSub litGofile (browserRewritten url) = true)
    (hc : optTruthy (browserFileCode (browserRewritten url)) = true) :
    download_with_browser_simulation e url fn f0 = (Attempt.ok false, f0) := by
  simp only [download_with_browser_simulation]
  by_cases h1 : e.rootOk = false
  · simp [h1]
  · by_cases h2 : containsSub litDSlash url = true ∧ e.pageOk = false
    · simp [h1, h2]
    · simp [h1, h2, hg, hc]

theorem c10_amended_browser_token_bug_witness :
    download_with_browser_simulation ⟨true, true, true, 0, [], false⟩
      ("https://gofile.io/d/abc".toList) ("x.bin".toList) none
      = (Attempt.ok false, none) :=
  c10_amended_browser_token_bug ⟨true, true, true, 0, [], false⟩
    ("https://gofile.io/d/abc".toList) ("x.bin".toList) none
    (by decide) (by decide)
